import Mathlib

/-!
Verification development for the conversation state machine of a
customer-support chat agent.  The definitions below are shallow embeddings
of the Python sources:

  * `src/utils/validators.py`      — field validators
  * `src/contact_form_handler.py`  — the contact-form finite state machine
  * `src/agent.py`                 — intent classification and response
                                     generation (deterministic skeleton;
                                     external LLM calls are parameters)
  * `src/session_manager.py`       — per-session store (in-memory backend,
                                     whose list semantics coincide with the
                                     Redis backend)
  * `src/chatbot.py`               — the per-turn orchestrator
                                     `ChatBot.process_message`

Machine strings are Lean `String`s; Python `str.strip` / `.lower` /
`.upper` are modelled character-wise on `String.data` (the inputs of
interest are ASCII).  External collaborators (LLM, persistence) appear as
explicit parameters so that the deterministic control flow can be proved
about.
-/

namespace VoiceAgent

/-- Python `str.strip` on the character list: drop whitespace from both
ends. -/
def stripChars (l : List Char) : List Char :=
  ((l.dropWhile Char.isWhitespace).reverse.dropWhile Char.isWhitespace).reverse

/-- Python `str.strip`. -/
def pyStrip (s : String) : String :=
  String.mk (stripChars s.data)

/-- Python `str.lower` (ASCII). -/
def pyLower (s : String) : String :=
  String.mk (s.data.map Char.toLower)

/-- Python `str.upper` (ASCII). -/
def pyUpper (s : String) : String :=
  String.mk (s.data.map Char.toUpper)

/-- Does `needle` occur at the start of `hay`? -/
def startsWithChars : List Char → List Char → Bool
  | [], _ => true
  | _ :: _, [] => false
  | a :: as, b :: bs => a == b && startsWithChars as bs

/-- Does `needle` occur as a contiguous substring of `hay`?
Models Python's `needle in hay` on strings. -/
def hasSub (needle : List Char) : List Char → Bool
  | [] => needle.isEmpty
  | c :: rest => startsWithChars needle (c :: rest) || hasSub needle rest

/-- Python `needle in hay` for strings. -/
def substrOf (needle hay : String) : Bool :=
  hasSub needle.data hay.data

/-! ## Validators (`src/utils/validators.py`) -/

/-- Character class `[a-zA-Z0-9._%+-]` of the local part of the e-mail
regex. -/
def isLocalChar (c : Char) : Bool :=
  c.isAlpha || c.isDigit || c == '.' || c == '_' || c == '%' || c == '+' || c == '-'

/-- Character class `[a-zA-Z0-9.-]` of the domain part of the e-mail
regex. -/
def isDomainChar (c : Char) : Bool :=
  c.isAlpha || c.isDigit || c == '.' || c == '-'

/-- The domain part of the pattern: `[a-zA-Z0-9.-]+\.[a-zA-Z]{2,}` matched
to the end of the string.  Because the final `[a-zA-Z]{2,}` segment cannot
contain a dot, the split can only happen at the last dot. -/
def emailDomainMatch (l : List Char) : Bool :=
  let r := l.reverse
  let tld := r.takeWhile (fun c => c != '.')
  match r.drop tld.length with
  | '.' :: p =>
      decide (2 ≤ tld.length) && tld.all Char.isAlpha && !p.isEmpty && p.all isDomainChar
  | _ => false

/-- Full match of `^[a-zA-Z0-9._%+-]+@[a-zA-Z0-9.-]+\.[a-zA-Z]{2,}$`.
Neither side's class contains `@`, so the split is at the unique `@`. -/
def emailRegexMatch (email : String) : Bool :=
  let l := email.data
  let localPart := l.takeWhile (fun c => c != '@')
  match l.drop localPart.length with
  | '@' :: domain =>
      !localPart.isEmpty && localPart.all isLocalChar && emailDomainMatch domain
  | _ => false

/-- `validate_email` from `src/utils/validators.py`. -/
def validate_email (email : String) : Bool × Option String :=
  let email := pyStrip email
  if email = "" then
    (false, some "Email cannot be empty")
  else if !(emailRegexMatch email) then
    (false, some "Please provide a valid email address (e.g., name@example.com)")
  else
    (true, none)

/-- Full match of `^\+\d{10,15}$` on the cleaned phone string. -/
def phoneRegexMatch (l : List Char) : Bool :=
  match l with
  | '+' :: ds => ds.all Char.isDigit && decide (10 ≤ ds.length) && decide (ds.length ≤ 15)
  | _ => false

/-- `validate_phone` from `src/utils/validators.py`: spaces and dashes are
removed before the check, the cleaned number must start with `+` and have
10–15 digits. -/
def validate_phone (phone : String) : Bool × Option String :=
  let phone := pyStrip phone
  let cleaned := phone.data.filter (fun c => c != ' ' && c != '-')
  if phone = "" then
    (false, some "Phone number cannot be empty")
  else if !(startsWithChars ['+'] cleaned) then
    (false, some "Phone number must include country code (e.g., +1234567890)")
  else if !(phoneRegexMatch cleaned) then
    (false, some "Please provide a valid phone number with country code (e.g., +911234567890)")
  else
    (true, none)

/-- `validate_datetime` from `src/utils/validators.py`: nonempty and at
least 5 characters. -/
def validate_datetime (datetime_str : String) : Bool × Option String :=
  let datetime_str := pyStrip datetime_str
  if datetime_str = "" then
    (false, some "Date and time cannot be empty")
  else if datetime_str.data.length < 5 then
    (false, some "Please provide more details about your preferred date and time")
  else
    (true, none)

/-- `validate_timezone` from `src/utils/validators.py`: nonempty and at
least 2 characters. -/
def validate_timezone (timezone_str : String) : Bool × Option String :=
  let timezone_str := pyStrip timezone_str
  if timezone_str = "" then
    (false, some "Timezone cannot be empty")
  else if timezone_str.data.length < 2 then
    (false, some "Please provide a valid timezone (e.g., IST, UTC+5:30, EST)")
  else
    (true, none)

/-- `validate_name` from `src/utils/validators.py`: nonempty, between 2 and
100 characters. -/
def validate_name (name : String) : Bool × Option String :=
  let name := pyStrip name
  if name = "" then
    (false, some "Name cannot be empty")
  else if name.data.length < 2 then
    (false, some "Name must be at least 2 characters long")
  else if name.data.length > 100 then
    (false, some "Name is too long (maximum 100 characters)")
  else
    (true, none)

example : (validate_name "John Doe").1 = true := by decide

example : (validate_email "john@example.com").1 = true := by decide

example : (validate_email "john@com").1 = false := by decide

example : (validate_phone "+91 12345 67890").1 = true := by decide

example : (validate_phone "9112345678").1 = false := by decide

example : (validate_datetime "1 December 2025 at 11pm").1 = true := by decide

example : (validate_timezone "IST").1 = true := by decide

example : (validate_timezone "I").1 = false := by decide

/-! ## Contact-form state machine (`src/agent.py`, `src/contact_form_handler.py`) -/

/-- The `ContactFormState` enum of `src/agent.py`. -/
inductive ContactFormState
  | IDLE
  | INITIAL_COLLECTING_NAME
  | INITIAL_COLLECTING_EMAIL
  | INITIAL_COLLECTING_PHONE
  | ASKING_CONSENT
  | COLLECTING_DATETIME
  | COLLECTING_TIMEZONE
  | COLLECTING_NAME
  | COLLECTING_EMAIL
  | COLLECTING_PHONE
  | COMPLETED
deriving DecidableEq, Repr

/-- The string value of each enum member. -/
def ContactFormState.value : ContactFormState → String
  | .IDLE => "idle"
  | .INITIAL_COLLECTING_NAME => "initial_collecting_name"
  | .INITIAL_COLLECTING_EMAIL => "initial_collecting_email"
  | .INITIAL_COLLECTING_PHONE => "initial_collecting_phone"
  | .ASKING_CONSENT => "asking_consent"
  | .COLLECTING_DATETIME => "collecting_datetime"
  | .COLLECTING_TIMEZONE => "collecting_timezone"
  | .COLLECTING_NAME => "collecting_name"
  | .COLLECTING_EMAIL => "collecting_email"
  | .COLLECTING_PHONE => "collecting_phone"
  | .COMPLETED => "completed"

/-- The contact-form accumulator dictionary.  The Python code only ever
uses the six keys below, so the dict is modelled as a record of optional
values (`none` = key absent). -/
structure FormData where
  name : Option String
  email : Option String
  mobile : Option String
  preferred_datetime : Option String
  timezone : Option String
  original_query : Option String
deriving DecidableEq, Repr

/-- The empty dictionary `{}`. -/
def emptyFormData : FormData :=
  ⟨none, none, none, none, none, none⟩

/-- Result dictionary of `handle_contact_form_step`. -/
structure StepResult where
  next_state : String
  response : String
  form_data : FormData
deriving DecidableEq, Repr

/-- Outcome of `mongodb_client.create_contact_request`, seen from the
handler: the call can raise, return `None`, or return an id.  The client
itself is an external collaborator. -/
inductive PersistOutcome
  | raised
  | returnedNone
  | savedId (id : String)
deriving DecidableEq, Repr

/-- Rendering of the error slot inside an f-string (a `None` would print
as `"None"`; validators always supply a message together with `False`). -/
def errString : Option String → String
  | some e => e
  | none => "None"

/-- `ContactFormHandler.should_trigger_contact_form`: trigger when there
are no results, or when no result has distance below the threshold. -/
def should_trigger_contact_form (context_docs : List ℚ) (distance_threshold : ℚ) : Bool :=
  if context_docs.isEmpty then true
  else (context_docs.countP (fun d => d < distance_threshold)) == 0

/-- `ContactFormHandler.ask_for_contact_consent`. -/
def ask_for_contact_consent (original_query : String) (is_explicit_request : Bool) : String :=
  if is_explicit_request then
    "Sure! I\x27d be happy to connect you with our team. Let me collect a few details so they can reach out to you.\n\nWhat\x27s your name?"
  else
    "I don\x27t have specific information about that in our current documents. However, I\x27d be happy to connect you with our team who can provide detailed assistance with your question about: \"" ++ original_query ++ "\"\n\nWould you like us to contact you? Just reply with \x27yes\x27 or \x27no\x27."

/-- Affirmative replies accepted in the `asking_consent` state. -/
def consentAffirmatives : List String :=
  ["yes", "y", "sure", "ok", "okay", "yeah"]

/-- `ContactFormHandler.handle_contact_form_step` — one step of the
contact-form state machine.  `form_state` is the raw string stored in the
session (any unrecognised value, including `"completed"`, falls through to
the default branch).  The MongoDB side effect cannot change the returned
dictionary: in the source every exception of `create_contact_request` is
caught and only logged. -/
def handle_contact_form_step (form_state user_input : String) (form_data : FormData)
    (session_id : String) (mongodb_client : Option PersistOutcome) : StepResult :=
  let user_input := pyStrip user_input
  if form_state = ContactFormState.INITIAL_COLLECTING_NAME.value then
    if (validate_name user_input).1 then
      ⟨ContactFormState.INITIAL_COLLECTING_EMAIL.value,
       "Thanks, " ++ user_input ++ "! What\x27s your email address?",
       { form_data with name := some user_input }⟩
    else
      ⟨form_state, errString (validate_name user_input).2 ++ " Please provide your full name:", form_data⟩
  else if form_state = ContactFormState.INITIAL_COLLECTING_EMAIL.value then
    if (validate_email user_input).1 then
      ⟨ContactFormState.INITIAL_COLLECTING_PHONE.value,
       "Perfect! What\x27s your mobile number? Please include your country code.",
       { form_data with email := some user_input }⟩
    else
      ⟨form_state, errString (validate_email user_input).2 ++ " Please provide a valid email address:", form_data⟩
  else if form_state = ContactFormState.INITIAL_COLLECTING_PHONE.value then
    if (validate_phone user_input).1 then
      -- data kept for later reuse
      ⟨ContactFormState.IDLE.value,
       "Thank you! I now have your details. How can I assist you today?",
       { form_data with mobile := some user_input }⟩
    else
      ⟨form_state, errString (validate_phone user_input).2 ++ " Please provide your mobile number:", form_data⟩
  else if form_state = ContactFormState.ASKING_CONSENT.value then
    if consentAffirmatives.contains (pyLower user_input) then
      ⟨ContactFormState.COLLECTING_NAME.value,
       "Great! Let me collect a few details. What\x27s your full name?",
       form_data⟩
    else
      ⟨ContactFormState.IDLE.value,
       "No problem! Is there anything else I can help you with?",
       emptyFormData⟩
  else if form_state = ContactFormState.COLLECTING_NAME.value then
    if (validate_name user_input).1 then
      ⟨ContactFormState.COLLECTING_EMAIL.value,
       "Thanks, " ++ user_input ++ "! What\x27s your email address?",
       { form_data with name := some user_input }⟩
    else
      ⟨form_state, errString (validate_name user_input).2 ++ " Please provide your full name:", form_data⟩
  else if form_state = ContactFormState.COLLECTING_EMAIL.value then
    if (validate_email user_input).1 then
      ⟨ContactFormState.COLLECTING_PHONE.value,
       "Perfect! What\x27s your mobile number? Please include your country code.",
       { form_data with email := some user_input }⟩
    else
      ⟨form_state, errString (validate_email user_input).2 ++ " Please provide a valid email address:", form_data⟩
  else if form_state = ContactFormState.COLLECTING_PHONE.value then
    if (validate_phone user_input).1 then
      ⟨ContactFormState.COLLECTING_DATETIME.value,
       "Got it! When would you prefer us to contact you? You can specify in any format.",
       { form_data with mobile := some user_input }⟩
    else
      ⟨form_state, errString (validate_phone user_input).2 ++ " Please provide your mobile number:", form_data⟩
  else if form_state = ContactFormState.COLLECTING_DATETIME.value then
    if (validate_datetime user_input).1 then
      ⟨ContactFormState.COLLECTING_TIMEZONE.value,
       "Great! What\x27s your timezone? (e.g., IST, UTC+5:30, EST, PST, GMT)",
       { form_data with preferred_datetime := some user_input }⟩
    else
      ⟨form_state, errString (validate_datetime user_input).2 ++ " Please provide your preferred date and time:", form_data⟩
  else if form_state = ContactFormState.COLLECTING_TIMEZONE.value then
    if (validate_timezone user_input).1 then
      -- `create_contact_request` runs here when a client is configured;
      -- its outcome (exception, None, or an id) is only logged.
      let _persisted := mongodb_client
      let _sid := session_id
      ⟨ContactFormState.COMPLETED.value,
       "All set! We\x27ve recorded your request and our team will contact you. Is there anything else I can help you with?",
       emptyFormData⟩
    else
      ⟨form_state, errString (validate_timezone user_input).2 ++ " Please provide your timezone:", form_data⟩
  else
    -- default fallback
    ⟨ContactFormState.IDLE.value,
     "Something went wrong. Let\x27s start over. How can I help you?",
     emptyFormData⟩

example :
    (handle_contact_form_step "collecting_name" "John Doe" emptyFormData "s" none).next_state =
      "collecting_email" := by decide

example :
    (handle_contact_form_step "completed" "hello" emptyFormData "s" none).response =
      "Something went wrong. Let\x27s start over. How can I help you?" := by decide

/-! ## Session store (`src/session_manager.py`, in-memory backend)

The store is keyed by session id and no operation touches more than one
session, so the embedding models the slice of the store belonging to one
session.  `session = none` models an id absent from `memory_sessions`
(never created, expired or cleared); form state and data default to
`"idle"` / `{}` exactly like the `.get(session_id, default)` reads. -/

/-- Metadata held in `memory_sessions[session_id]`.  Timestamps are
abstract ticks. -/
structure Session where
  created_at : Nat
  last_activity : Nat
  query_count : Nat
deriving DecidableEq, Repr

/-- One entry of the conversation history list. -/
structure HistEntry where
  role : String
  message : String
  ts : Nat
deriving DecidableEq, Repr

/-- The per-session slice of the `SessionManager` state. -/
structure SessionState where
  session : Option Session
  contact_form_state : String
  contact_form_data : FormData
  history : List HistEntry
deriving DecidableEq, Repr

/-- A session id with no stored keys: unknown metadata, default form
state and data, empty history. -/
def emptySessionState : SessionState :=
  ⟨none, "idle", emptyFormData, []⟩

/-- `SessionManager.update_session_activity`: `False` when the session is
unknown; otherwise the activity timestamp is refreshed, the turn count is
incremented, and `True` is returned. -/
def update_session_activity (now : Nat) (st : SessionState) : Bool × SessionState :=
  match st.session with
  | none => (false, st)
  | some s =>
      (true, { st with session := some { s with last_activity := now, query_count := s.query_count + 1 } })

/-- `SessionManager.append_message_to_history`: appends at the end of the
turn list; in the in-memory backend this always succeeds. -/
def append_message_to_history (st : SessionState) (role message : String) (now : Nat) :
    Bool × SessionState :=
  (true, { st with history := st.history ++ [⟨role, message, now⟩] })

/-- `SessionManager.get_session_history`: the full list, or its last
`limit` entries when a positive limit is given (Python `history[-limit:]`
guarded by `limit > 0`). -/
def get_session_history (st : SessionState) (limit : Option Nat) : List HistEntry :=
  match limit with
  | some n => if 0 < n then st.history.drop (st.history.length - n) else st.history
  | none => st.history

/-- The backwards scan of `get_last_user_query`, on the already reversed
history window: return the first `role = "user"` entry, skipping the
first match when asked to. -/
def lastUserScan : List HistEntry → Bool → Option String
  | [], _ => none
  | e :: rest, skip =>
      if e.role = "user" then
        if skip then lastUserScan rest false else some e.message
      else lastUserScan rest skip

/-- `SessionManager.get_last_user_query`: fetches the history with
`limit=20` and scans it from newest to oldest. -/
def get_last_user_query (st : SessionState) (skip_current : Bool) : Option String :=
  lastUserScan (get_session_history st (some 20)).reverse skip_current

/-! ## Intent classification (`src/agent.py`) -/

/-- The `IntentType` enum of `src/agent.py`. -/
inductive IntentType
  | GREETING
  | CASUAL_CHAT
  | FOLLOWUP
  | CONTACT_REQUEST
  | QUERY
  | GOODBYE
  | UNCLEAR
deriving DecidableEq, Repr

/-- The string value of each intent. -/
def IntentType.value : IntentType → String
  | .GREETING => "greeting"
  | .CASUAL_CHAT => "casual_chat"
  | .FOLLOWUP => "followup"
  | .CONTACT_REQUEST => "contact_request"
  | .QUERY => "query"
  | .GOODBYE => "goodbye"
  | .UNCLEAR => "unclear"

/-- Contact-request phrases of the heuristic fallback, checked first. -/
def contactPhrases : List String :=
  ["connect me", "contact me", "reach out", "get in touch",
   "call me", "email me", "have someone contact", "someone reach out",
   "talk to someone", "speak to someone", "connect with"]

/-- Greeting words of the heuristic fallback, checked second. -/
def greetingWords : List String :=
  ["hi", "hello", "hey"]

/-- Goodbye phrases of the heuristic fallback, checked third. -/
def goodbyePhrases : List String :=
  ["bye", "goodbye", "good bye", "see you", "thanks", "thank you",
   "ok thank you", "okay thank you", "that\x27s all", "thats all",
   "end", "quit", "exit", "done", "finished", "all good",
   "appreciate it", "perfect", "great thanks", "awesome thanks"]

/-- The deterministic keyword fallback of `classify_intent`: contact
phrases, then greetings, then goodbyes; everything else is a query. -/
def classifyIntentFallback (user_input : String) : IntentType :=
  let t := pyStrip (pyLower user_input)
  if contactPhrases.any (fun p => substrOf p t) then
    IntentType.CONTACT_REQUEST
  else if greetingWords.any (fun w => substrOf w t) then
    IntentType.GREETING
  else if goodbyePhrases.any (fun p => substrOf p t) then
    IntentType.GOODBYE
  else
    IntentType.QUERY

/-- `ChatbotAgent.classify_intent`.  The LLM call is an external
collaborator: `llm_result` is its text on success, `Except.error` when it
raises.  On success the single-word answer is mapped by substring match in
the fixed priority order; on failure the keyword fallback runs. -/
def classify_intent (llm_result : Except Unit String) (user_input : String) : IntentType :=
  match llm_result with
  | .ok response =>
      let intent_text := pyUpper (pyStrip response)
      if substrOf "GREETING" intent_text then IntentType.GREETING
      else if substrOf "CASUAL" intent_text then IntentType.CASUAL_CHAT
      else if substrOf "FOLLOWUP" intent_text then IntentType.FOLLOWUP
      else if substrOf "CONTACT" intent_text then IntentType.CONTACT_REQUEST
      else if substrOf "QUERY" intent_text then IntentType.QUERY
      else if substrOf "GOODBYE" intent_text then IntentType.GOODBYE
      else IntentType.UNCLEAR
  | .error _ => classifyIntentFallback user_input

example : classify_intent (Except.error ()) "please connect me with someone" =
    IntentType.CONTACT_REQUEST := by decide

example : classify_intent (Except.error ()) "thanks, that\x27s all" =
    IntentType.GOODBYE := by decide

/-! ## Response generation skeleton (`src/agent.py`) -/

/-- A retrieved passage: content, source metadata and a dissimilarity
score (a float in the source, modelled as a rational). -/
structure RetrievedDoc where
  content : String
  source : String
  distance : ℚ
deriving DecidableEq, Repr

/-- `os.path.basename`: the component after the last `/`. -/
def osBasename (s : String) : String :=
  String.mk ((s.data.reverse.takeWhile (fun c => c != '/')).reverse)

/-- The context text assembled by `generate_response_from_context`: one
block per document whose stripped content is nonempty, numbered by the
document's position, joined by blank lines. -/
def buildContextText (context_docs : List RetrievedDoc) : String :=
  let chunks := context_docs.enum.filterMap (fun p =>
    let chunk := pyStrip p.2.content
    if chunk = "" then none
    else some ("[Source: " ++ osBasename p.2.source ++ "]\nContext " ++ toString (p.1 + 1) ++ ": " ++ chunk))
  String.intercalate "\n\n" chunks

/-- `ChatbotAgent.generate_response_from_context`, deterministic skeleton.
When no context text can be assembled the function never calls the LLM: it
returns the sentinel `"TRIGGER_CONTACT_FORM"` when
`should_trigger_contact_form` fires (always, for an empty result list) and
a fixed guidance text otherwise.  With nonempty context the result comes
from the LLM branch, abstracted as the parameter `llm_branch` (external
collaborator plus its post-processing). -/
def generate_response_from_context (query : String) (context_docs : List RetrievedDoc)
    (llm_branch : String) : String :=
  let _q := query
  let context_text := buildContextText context_docs
  if context_text = "" then
    if should_trigger_contact_form (context_docs.map RetrievedDoc.distance) (3 / 2) then
      "TRIGGER_CONTACT_FORM"
    else
      "I don\x27t have specific information about that topic in our documents. \n                    For detailed information, please contact us directly at sales@techgropse.com. \n                    We\x27ll be happy to assist you with any questions."
  else
    llm_branch

example : generate_response_from_context "who is X" [] "unused" = "TRIGGER_CONTACT_FORM" := by
  decide

/-! ## Per-turn orchestrator (`src/chatbot.py`, `ChatBot.process_message`) -/

/-- The slice of `agent.process_user_input`'s result dictionary that the
orchestrator reads: the classified intent string and the response text. -/
structure TurnResult where
  intent : String
  response : String
deriving DecidableEq, Repr

/-- Python truthiness of `dict.get(key)`: a present, nonempty string. -/
def truthy : Option String → Bool
  | some s => !(s == "")
  | none => false

/-- Python truthiness of the form-data dict itself: at least one key. -/
def formDataNonempty (fd : FormData) : Bool :=
  fd.name.isSome || fd.email.isSome || fd.mobile.isSome ||
  fd.preferred_datetime.isSome || fd.timezone.isSome || fd.original_query.isSome

/-- `ChatBot.process_message`.  `agent` abstracts
`agent.process_user_input` (it builds on LLM calls, so it is an external
collaborator here): it receives the user input and the previous user query
and yields an intent and response.  `mongodb_client` abstracts the
persistence collaborator as in `handle_contact_form_step`.  Returns the
bot response and the updated session slice.

Faithful control flow: the boolean result of `update_session_activity` is
discarded; the user turn is appended; a non-idle form state routes to the
form handler; an explicit `contact_request` intent either jumps to
`collecting_datetime` (complete stored details) or starts collection at
`collecting_name`; the `"TRIGGER_CONTACT_FORM"` sentinel moves to
`asking_consent` with the consent question. -/
def process_message (agent : String → Option String → TurnResult)
    (mongodb_client : Option PersistOutcome) (session_id user_input : String)
    (now : Nat) (st : SessionState) : String × SessionState :=
  let st := (update_session_activity now st).2
  let st := (append_message_to_history st "user" user_input now).2
  let form_state := st.contact_form_state
  if form_state ≠ ContactFormState.IDLE.value then
    let result := handle_contact_form_step form_state user_input st.contact_form_data
        session_id mongodb_client
    let st := { st with contact_form_state := result.next_state,
                        contact_form_data := result.form_data }
    let st := (append_message_to_history st "bot" result.response now).2
    (result.response, st)
  else
    let last_user := get_last_user_query st true
    let r := agent user_input last_user
    if r.intent = "contact_request" then
      let user_details := st.contact_form_data
      if formDataNonempty user_details && truthy user_details.name &&
          truthy user_details.email && truthy user_details.mobile then
        let data := { user_details with original_query := some user_input }
        let st := { st with contact_form_data := data,
                            contact_form_state := ContactFormState.COLLECTING_DATETIME.value }
        let response := "Great! I\x27ll connect you with our team. When would be the best time for them to reach out to you? Please provide your preferred date and time."
        let st := (append_message_to_history st "bot" response now).2
        (response, st)
      else
        let data : FormData := { emptyFormData with original_query := some user_input }
        let st := { st with contact_form_data := data,
                            contact_form_state := ContactFormState.COLLECTING_NAME.value }
        let response := ask_for_contact_consent user_input true
        let st := (append_message_to_history st "bot" response now).2
        (response, st)
    else if r.response = "TRIGGER_CONTACT_FORM" then
      let data : FormData := { emptyFormData with original_query := some user_input }
      let st := { st with contact_form_data := data,
                          contact_form_state := ContactFormState.ASKING_CONSENT.value }
      let response := ask_for_contact_consent user_input false
      let st := (append_message_to_history st "bot" response now).2
      (response, st)
    else
      let st := (append_message_to_history st "bot" r.response now).2
      (r.response, st)

example :
    (process_message (fun _ _ => ⟨"query", "TRIGGER_CONTACT_FORM"⟩) none "sid" "who is X" 3
      emptySessionState).2.contact_form_state = "asking_consent" := by decide

example :
    (process_message (fun _ _ => ⟨"contact_request", "x"⟩) none "sid" "connect me" 3
      emptySessionState).2.contact_form_state = "collecting_name" := by decide

/-! ## Stripping is idempotent

The handler strips the user input before validating, and every validator
strips its argument again; these lemmas identify the two, so that theorems
can hypothesise directly about `validate_x input`. -/

lemma stripChars_eq_rdropWhile (l : List Char) :
    stripChars l = List.rdropWhile Char.isWhitespace (l.dropWhile Char.isWhitespace) := rfl

lemma stripChars_idem (l : List Char) : stripChars (stripChars l) = stripChars l := by
  have hA : List.dropWhile Char.isWhitespace (List.dropWhile Char.isWhitespace l) =
      List.dropWhile Char.isWhitespace l := List.dropWhile_idempotent _ _
  set A := List.dropWhile Char.isWhitespace l with hAdef
  have hpre : List.rdropWhile Char.isWhitespace A <+: A := List.rdropWhile_prefix _ _
  have hBfix : List.dropWhile Char.isWhitespace (List.rdropWhile Char.isWhitespace A) =
      List.rdropWhile Char.isWhitespace A := by
    rw [List.dropWhile_eq_self_iff]
    intro hl
    have hlen : 0 < A.length := lt_of_lt_of_le hl hpre.length_le
    have h0 : (List.rdropWhile Char.isWhitespace A).get ⟨0, hl⟩ = A.get ⟨0, hlen⟩ := by
      simpa using hpre.getElem hl
    rw [h0]
    have h1 := (List.dropWhile_eq_self_iff).mp hA
    exact h1 hlen
  calc stripChars (stripChars l)
      = List.rdropWhile Char.isWhitespace
          (List.dropWhile Char.isWhitespace (List.rdropWhile Char.isWhitespace A)) := rfl
    _ = List.rdropWhile Char.isWhitespace (List.rdropWhile Char.isWhitespace A) := by rw [hBfix]
    _ = List.rdropWhile Char.isWhitespace A := List.rdropWhile_idempotent _ _
    _ = stripChars l := rfl

lemma pyStrip_idem (s : String) : pyStrip (pyStrip s) = pyStrip s := by
  show String.mk (stripChars (String.mk (stripChars s.data)).data) = String.mk (stripChars s.data)
  rw [show (String.mk (stripChars s.data)).data = stripChars s.data from rfl, stripChars_idem]

lemma validate_name_strip (s : String) : validate_name (pyStrip s) = validate_name s := by
  unfold validate_name
  rw [pyStrip_idem]

lemma validate_email_strip (s : String) : validate_email (pyStrip s) = validate_email s := by
  unfold validate_email
  rw [pyStrip_idem]

lemma validate_phone_strip (s : String) : validate_phone (pyStrip s) = validate_phone s := by
  unfold validate_phone
  rw [pyStrip_idem]

lemma validate_datetime_strip (s : String) :
    validate_datetime (pyStrip s) = validate_datetime s := by
  unfold validate_datetime
  rw [pyStrip_idem]

lemma validate_timezone_strip (s : String) :
    validate_timezone (pyStrip s) = validate_timezone s := by
  unfold validate_timezone
  rw [pyStrip_idem]

/-! ## Claim theorems -/

/-- The eight field-collecting states of the form, with the validator the
handler delegates to and the re-prompt text (separator included) appended
after the validation error in the retry response.  All three components
are read off `handle_contact_form_step`. -/
inductive FieldState
  | initName
  | initEmail
  | initPhone
  | cName
  | cEmail
  | cPhone
  | cDatetime
  | cTimezone
deriving DecidableEq, Repr

def FieldState.stateValue : FieldState → String
  | .initName => ContactFormState.INITIAL_COLLECTING_NAME.value
  | .initEmail => ContactFormState.INITIAL_COLLECTING_EMAIL.value
  | .initPhone => ContactFormState.INITIAL_COLLECTING_PHONE.value
  | .cName => ContactFormState.COLLECTING_NAME.value
  | .cEmail => ContactFormState.COLLECTING_EMAIL.value
  | .cPhone => ContactFormState.COLLECTING_PHONE.value
  | .cDatetime => ContactFormState.COLLECTING_DATETIME.value
  | .cTimezone => ContactFormState.COLLECTING_TIMEZONE.value

def FieldState.validator : FieldState → String → Bool × Option String
  | .initName => validate_name
  | .initEmail => validate_email
  | .initPhone => validate_phone
  | .cName => validate_name
  | .cEmail => validate_email
  | .cPhone => validate_phone
  | .cDatetime => validate_datetime
  | .cTimezone => validate_timezone

def FieldState.reprompt : FieldState → String
  | .initName => " Please provide your full name:"
  | .initEmail => " Please provide a valid email address:"
  | .initPhone => " Please provide your mobile number:"
  | .cName => " Please provide your full name:"
  | .cEmail => " Please provide a valid email address:"
  | .cPhone => " Please provide your mobile number:"
  | .cDatetime => " Please provide your preferred date and time:"
  | .cTimezone => " Please provide your timezone:"

/-- C1: in every field-collecting state, an input rejected by that state's
validator leaves the state and the accumulated form data unchanged, and
the response is the validator's error message followed by the re-prompt —
the form never advances on invalid input. -/
theorem invalid_input_keeps_state (fs : FieldState) (input : String) (fd : FormData)
    (sid : String) (mc : Option PersistOutcome)
    (h : (fs.validator input).1 = false) :
    handle_contact_form_step fs.stateValue input fd sid mc =
      ⟨fs.stateValue, errString (fs.validator input).2 ++ fs.reprompt, fd⟩ := by
  cases fs <;>
    simp only [FieldState.validator] at h <;>
    simp [handle_contact_form_step, ContactFormState.value, FieldState.stateValue,
      FieldState.validator, FieldState.reprompt, validate_name_strip, validate_email_strip,
      validate_phone_strip, validate_datetime_strip, validate_timezone_strip, h]

/-- Witness for C1: the empty name is rejected in `collecting_name` and
the handler re-prompts in place. -/
theorem invalid_input_keeps_state_witness :
    (FieldState.cName.validator "").1 = false ∧
    handle_contact_form_step FieldState.cName.stateValue "" emptyFormData "sid" none =
      ⟨FieldState.cName.stateValue,
       errString (FieldState.cName.validator "").2 ++ FieldState.cName.reprompt,
       emptyFormData⟩ :=
  ⟨by decide, invalid_input_keeps_state FieldState.cName "" emptyFormData "sid" none (by decide)⟩

/-- C2: from `collecting_name`, five consecutive inputs valid for the
successive fields walk the form through `collecting_email`,
`collecting_phone`, `collecting_datetime`, `collecting_timezone` and into
`completed`, and the form data returned by the final step is the empty
mapping. -/
theorem five_valid_inputs_reach_completed (i1 i2 i3 i4 i5 : String) (fd : FormData)
    (sid : String) (mc : Option PersistOutcome)
    (h1 : (validate_name i1).1 = true) (h2 : (validate_email i2).1 = true)
    (h3 : (validate_phone i3).1 = true) (h4 : (validate_datetime i4).1 = true)
    (h5 : (validate_timezone i5).1 = true) :
    let r1 := handle_contact_form_step ContactFormState.COLLECTING_NAME.value i1 fd sid mc
    let r2 := handle_contact_form_step r1.next_state i2 r1.form_data sid mc
    let r3 := handle_contact_form_step r2.next_state i3 r2.form_data sid mc
    let r4 := handle_contact_form_step r3.next_state i4 r3.form_data sid mc
    let r5 := handle_contact_form_step r4.next_state i5 r4.form_data sid mc
    r1.next_state = ContactFormState.COLLECTING_EMAIL.value ∧
    r2.next_state = ContactFormState.COLLECTING_PHONE.value ∧
    r3.next_state = ContactFormState.COLLECTING_DATETIME.value ∧
    r4.next_state = ContactFormState.COLLECTING_TIMEZONE.value ∧
    r5.next_state = ContactFormState.COMPLETED.value ∧
    r5.form_data = emptyFormData := by
  simp [handle_contact_form_step, ContactFormState.value, validate_name_strip,
    validate_email_strip, validate_phone_strip, validate_datetime_strip,
    validate_timezone_strip, h1, h2, h3, h4, h5]

/-- Witness for C2: a concrete five-input run of the form. -/
theorem five_valid_inputs_reach_completed_witness :
    (validate_name "John Doe").1 = true ∧ (validate_email "john@example.com").1 = true ∧
    (validate_phone "+911234567890").1 = true ∧
    (validate_datetime "1 December 2025 at 11pm").1 = true ∧
    (validate_timezone "IST").1 = true ∧
    (let r1 := handle_contact_form_step ContactFormState.COLLECTING_NAME.value "John Doe"
        emptyFormData "sid" none
     let r2 := handle_contact_form_step r1.next_state "john@example.com" r1.form_data "sid" none
     let r3 := handle_contact_form_step r2.next_state "+911234567890" r2.form_data "sid" none
     let r4 := handle_contact_form_step r3.next_state "1 December 2025 at 11pm" r3.form_data
        "sid" none
     let r5 := handle_contact_form_step r4.next_state "IST" r4.form_data "sid" none
     r1.next_state = ContactFormState.COLLECTING_EMAIL.value ∧
     r2.next_state = ContactFormState.COLLECTING_PHONE.value ∧
     r3.next_state = ContactFormState.COLLECTING_DATETIME.value ∧
     r4.next_state = ContactFormState.COLLECTING_TIMEZONE.value ∧
     r5.next_state = ContactFormState.COMPLETED.value ∧
     r5.form_data = emptyFormData) :=
  ⟨by decide, by decide, by decide, by decide, by decide,
   five_valid_inputs_reach_completed "John Doe" "john@example.com" "+911234567890"
     "1 December 2025 at 11pm" "IST" emptyFormData "sid" none
     (by decide) (by decide) (by decide) (by decide) (by decide)⟩

/-- C3: a valid timezone input in `collecting_timezone` completes the
form — state `completed`, data cleared, fixed success message — and the
result is the same for every outcome of the persistence collaborator (no
client configured, call raised, call returned no id, call returned an
id): the failure is only logged and the success message is not revoked. -/
theorem timezone_completion_independent_of_persistence (input : String) (fd : FormData)
    (sid : String) (h : (validate_timezone input).1 = true) :
    ∀ mc : Option PersistOutcome,
      handle_contact_form_step ContactFormState.COLLECTING_TIMEZONE.value input fd sid mc =
        ⟨ContactFormState.COMPLETED.value,
         "All set! We\x27ve recorded your request and our team will contact you. Is there anything else I can help you with?",
         emptyFormData⟩ := by
  intro mc
  simp [handle_contact_form_step, ContactFormState.value, validate_timezone_strip, h]

/-- Witness for C3: completing with `"IST"` under a raising client and
under a client that returns no id. -/
theorem timezone_completion_independent_of_persistence_witness :
    (validate_timezone "IST").1 = true ∧
    handle_contact_form_step ContactFormState.COLLECTING_TIMEZONE.value "IST" emptyFormData
        "sid" (some PersistOutcome.raised) =
      ⟨ContactFormState.COMPLETED.value,
       "All set! We\x27ve recorded your request and our team will contact you. Is there anything else I can help you with?",
       emptyFormData⟩ ∧
    handle_contact_form_step ContactFormState.COLLECTING_TIMEZONE.value "IST" emptyFormData
        "sid" (some PersistOutcome.returnedNone) =
      ⟨ContactFormState.COMPLETED.value,
       "All set! We\x27ve recorded your request and our team will contact you. Is there anything else I can help you with?",
       emptyFormData⟩ :=
  ⟨by decide,
   timezone_completion_independent_of_persistence "IST" emptyFormData "sid" (by decide)
     (some PersistOutcome.raised),
   timezone_completion_independent_of_persistence "IST" emptyFormData "sid" (by decide)
     (some PersistOutcome.returnedNone)⟩

/-- C6: from `asking_consent` an affirmative reply (one of the accepted
yes-words, after stripping and lowercasing) moves to `collecting_name`
with the form data retained; any other reply returns to `idle` with the
form data reset to the empty mapping. -/
theorem consent_branch_behavior (input : String) (fd : FormData) (sid : String)
    (mc : Option PersistOutcome) :
    handle_contact_form_step ContactFormState.ASKING_CONSENT.value input fd sid mc =
      if consentAffirmatives.contains (pyLower (pyStrip input)) then
        ⟨ContactFormState.COLLECTING_NAME.value,
         "Great! Let me collect a few details. What\x27s your full name?", fd⟩
      else
        ⟨ContactFormState.IDLE.value,
         "No problem! Is there anything else I can help you with?", emptyFormData⟩ := by
  by_cases hc : consentAffirmatives.contains (pyLower (pyStrip input)) = true <;>
    simp [handle_contact_form_step, ContactFormState.value, hc]

/-- C7: when the generation collaborator raises during intent
classification, the deterministic keyword fallback runs (contact phrases,
then greetings, then goodbyes): "please connect me with someone" is a
contact request, "thanks, that's all" is a goodbye, and any input matching
no keyword is a query — the fallback never yields `unclear`. -/
theorem classifier_fallback_examples :
    classify_intent (Except.error ()) "please connect me with someone" =
      IntentType.CONTACT_REQUEST ∧
    classify_intent (Except.error ()) "thanks, that\x27s all" = IntentType.GOODBYE ∧
    (∀ s : String,
      contactPhrases.any (fun p => substrOf p (pyStrip (pyLower s))) = false →
      greetingWords.any (fun w => substrOf w (pyStrip (pyLower s))) = false →
      goodbyePhrases.any (fun p => substrOf p (pyStrip (pyLower s))) = false →
      classify_intent (Except.error ()) s = IntentType.QUERY) ∧
    (∀ s : String, classify_intent (Except.error ()) s ≠ IntentType.UNCLEAR) := by
  refine ⟨by decide, by decide, ?_, ?_⟩
  · intro s h1 h2 h3
    simp [classify_intent, classifyIntentFallback, h1, h2, h3]
  · intro s
    by_cases h1 : contactPhrases.any (fun p => substrOf p (pyStrip (pyLower s))) = true <;>
      by_cases h2 : greetingWords.any (fun w => substrOf w (pyStrip (pyLower s))) = true <;>
        by_cases h3 : goodbyePhrases.any (fun p => substrOf p (pyStrip (pyLower s))) = true <;>
          simp [classify_intent, classifyIntentFallback, h1, h2, h3]

/-- Witness for C7: a keyword-free input classifies as `query` under the
fallback. -/
theorem classifier_fallback_examples_witness :
    contactPhrases.any
        (fun p => substrOf p (pyStrip (pyLower "what is your pricing"))) = false ∧
    greetingWords.any
        (fun w => substrOf w (pyStrip (pyLower "what is your pricing"))) = false ∧
    goodbyePhrases.any
        (fun p => substrOf p (pyStrip (pyLower "what is your pricing"))) = false ∧
    classify_intent (Except.error ()) "what is your pricing" = IntentType.QUERY :=
  ⟨by decide, by decide, by decide,
   classifier_fallback_examples.2.2.1 "what is your pricing" (by decide) (by decide) (by decide)⟩

/-- C5: with an empty filtered retrieval result, response generation
returns the `"TRIGGER_CONTACT_FORM"` sentinel (no free-text answer); and
an idle-state turn whose agent result is intent `query` with that sentinel
makes the orchestrator store the original query in the form data, move the
form state to `asking_consent`, and reply with the consent question. -/
theorem empty_retrieval_triggers_consent
    (agent : String → Option String → TurnResult) (mc : Option PersistOutcome)
    (sid input : String) (now : Nat) (st : SessionState)
    (h_idle : st.contact_form_state = ContactFormState.IDLE.value)
    (h_intent : ∀ lq, (agent input lq).intent = IntentType.QUERY.value)
    (h_resp : ∀ lq, (agent input lq).response = "TRIGGER_CONTACT_FORM") :
    (∀ q llm_branch, generate_response_from_context q [] llm_branch = "TRIGGER_CONTACT_FORM") ∧
    (process_message agent mc sid input now st).1 = ask_for_contact_consent input false ∧
    (process_message agent mc sid input now st).2.contact_form_state =
      ContactFormState.ASKING_CONSENT.value ∧
    (process_message agent mc sid input now st).2.contact_form_data =
      { emptyFormData with original_query := some input } := by
  refine ⟨fun q llm_branch => by
    simp [generate_response_from_context, buildContextText, should_trigger_contact_form,
      show String.intercalate "\n\n" ([] : List String) = "" from rfl], ?_⟩
  obtain ⟨se, fs, fd, hist⟩ := st
  simp only [ContactFormState.value] at h_idle
  subst h_idle
  cases se <;>
    simp [process_message, update_session_activity, append_message_to_history,
      IntentType.value, ContactFormState.value, h_intent, h_resp]

/-- Witness for C5: a concrete idle turn with an empty-retrieval agent. -/
theorem empty_retrieval_triggers_consent_witness :
    emptySessionState.contact_form_state = ContactFormState.IDLE.value ∧
    (process_message (fun _ _ => ⟨"query", "TRIGGER_CONTACT_FORM"⟩) none "sid"
        "who is Prateek" 1 emptySessionState).1 =
      ask_for_contact_consent "who is Prateek" false ∧
    (process_message (fun _ _ => ⟨"query", "TRIGGER_CONTACT_FORM"⟩) none "sid"
        "who is Prateek" 1 emptySessionState).2.contact_form_state =
      ContactFormState.ASKING_CONSENT.value :=
  ⟨rfl,
   (empty_retrieval_triggers_consent (fun _ _ => ⟨"query", "TRIGGER_CONTACT_FORM"⟩) none "sid"
      "who is Prateek" 1 emptySessionState rfl (fun _ => rfl) (fun _ => rfl)).2.1,
   (empty_retrieval_triggers_consent (fun _ _ => ⟨"query", "TRIGGER_CONTACT_FORM"⟩) none "sid"
      "who is Prateek" 1 emptySessionState rfl (fun _ => rfl) (fun _ => rfl)).2.2.1⟩

/-- C4: on an idle-state turn classified `contact_request`, if the stored
form data already has truthy name, email and mobile, the orchestrator
jumps to `collecting_datetime` (adding the query to the stored data) and
asks only for timing; otherwise it stores just the triggering query and
starts at `collecting_name` with no consent step. -/
theorem contact_request_routing
    (agent : String → Option String → TurnResult) (mc : Option PersistOutcome)
    (sid input : String) (now : Nat) (st : SessionState)
    (h_idle : st.contact_form_state = ContactFormState.IDLE.value)
    (h_intent : ∀ lq, (agent input lq).intent = IntentType.CONTACT_REQUEST.value) :
    (process_message agent mc sid input now st).1 =
      (if formDataNonempty st.contact_form_data && truthy st.contact_form_data.name &&
          truthy st.contact_form_data.email && truthy st.contact_form_data.mobile then
        "Great! I\x27ll connect you with our team. When would be the best time for them to reach out to you? Please provide your preferred date and time."
      else ask_for_contact_consent input true) ∧
    (process_message agent mc sid input now st).2.contact_form_state =
      (if formDataNonempty st.contact_form_data && truthy st.contact_form_data.name &&
          truthy st.contact_form_data.email && truthy st.contact_form_data.mobile then
        ContactFormState.COLLECTING_DATETIME.value
      else ContactFormState.COLLECTING_NAME.value) ∧
    (process_message agent mc sid input now st).2.contact_form_data =
      (if formDataNonempty st.contact_form_data && truthy st.contact_form_data.name &&
          truthy st.contact_form_data.email && truthy st.contact_form_data.mobile then
        { st.contact_form_data with original_query := some input }
      else { emptyFormData with original_query := some input }) := by
  obtain ⟨se, fs, fd, hist⟩ := st
  simp only [ContactFormState.value] at h_idle
  subst h_idle
  cases se <;>
    by_cases hd : (formDataNonempty fd && truthy fd.name && truthy fd.email &&
        truthy fd.mobile) = true <;>
      simp [process_message, update_session_activity, append_message_to_history,
        IntentType.value, ContactFormState.value, h_intent, hd]

/-- Witness for C4: complete stored details jump straight to
`collecting_datetime`; an empty store starts at `collecting_name`. -/
theorem contact_request_routing_witness :
    (let stFull : SessionState :=
      ⟨none, "idle", ⟨some "John", some "j@x.co", some "+911234567890", none, none, none⟩, []⟩
     (process_message (fun _ _ => ⟨"contact_request", "x"⟩) none "sid" "connect me" 1
        stFull).2.contact_form_state = ContactFormState.COLLECTING_DATETIME.value) ∧
    (process_message (fun _ _ => ⟨"contact_request", "x"⟩) none "sid" "connect me" 1
        emptySessionState).2.contact_form_state = ContactFormState.COLLECTING_NAME.value := by
  constructor
  · have h := contact_request_routing (fun _ _ => ⟨"contact_request", "x"⟩) none "sid"
      "connect me" 1
      ⟨none, "idle", ⟨some "John", some "j@x.co", some "+911234567890", none, none, none⟩, []⟩
      rfl (fun _ => rfl)
    exact h.2.1.trans (by decide)
  · have h := contact_request_routing (fun _ _ => ⟨"contact_request", "x"⟩) none "sid"
      "connect me" 1 emptySessionState rfl (fun _ => rfl)
    exact h.2.1.trans (by decide)

/-- C10: a valid timezone input leaves the session in state `completed`;
the next message on the session is routed back into the form handler,
matches no branch, and hits the default fallback — state reset to `idle`,
data cleared, and the fixed "Something went wrong" reply. -/
theorem completed_state_next_message_resets
    (agent : String → Option String → TurnResult) (mc : Option PersistOutcome)
    (sid input1 input2 : String) (now1 now2 : Nat) (st : SessionState)
    (h_tz : st.contact_form_state = ContactFormState.COLLECTING_TIMEZONE.value)
    (h_valid : (validate_timezone input1).1 = true) :
    (process_message agent mc sid input1 now1 st).2.contact_form_state =
      ContactFormState.COMPLETED.value ∧
    (process_message agent mc sid input2 now2
        (process_message agent mc sid input1 now1 st).2).1 =
      "Something went wrong. Let\x27s start over. How can I help you?" ∧
    (process_message agent mc sid input2 now2
        (process_message agent mc sid input1 now1 st).2).2.contact_form_state =
      ContactFormState.IDLE.value ∧
    (process_message agent mc sid input2 now2
        (process_message agent mc sid input1 now1 st).2).2.contact_form_data =
      emptyFormData := by
  obtain ⟨se, fs, fd, hist⟩ := st
  simp only [ContactFormState.value] at h_tz
  subst h_tz
  cases se <;>
    simp [process_message, update_session_activity, append_message_to_history,
      handle_contact_form_step, ContactFormState.value, validate_timezone_strip, h_valid]

/-- Witness for C10: completing with `"IST"` and sending one more
message. -/
theorem completed_state_next_message_resets_witness :
    (let st : SessionState := ⟨none, "collecting_timezone", emptyFormData, []⟩
     let agent : String → Option String → TurnResult := fun _ _ => ⟨"query", "a"⟩
     (process_message agent none "sid" "IST" 1 st).2.contact_form_state =
        ContactFormState.COMPLETED.value ∧
     (process_message agent none "sid" "anything else" 2
        (process_message agent none "sid" "IST" 1 st).2).1 =
       "Something went wrong. Let\x27s start over. How can I help you?") ∧
    (validate_timezone "IST").1 = true := by
  refine ⟨?_, by decide⟩
  have h := completed_state_next_message_resets (fun _ _ => ⟨"query", "a"⟩) none "sid" "IST"
    "anything else" 1 2 ⟨none, "collecting_timezone", emptyFormData, []⟩ rfl (by decide)
  exact ⟨h.1, h.2.1⟩

/-! ### History and last-user-query (C8)

`spec_last_user_query` and `spec_prev_user_query` follow the words of the
spec — "the most recent entry with role user" / "the second-most-recent
such entry" over the whole history — for comparison with the
implementation, which fetches the history with `limit=20` before
scanning. -/

/-- Spec reading: the message of the most recent `role = "user"` entry of
the whole list. -/
def spec_last_user_query (l : List HistEntry) : Option String :=
  (l.reverse.find? (fun e => e.role == "user")).map HistEntry.message

/-- Spec reading: the message of the second-most-recent `role = "user"`
entry of the whole list. -/
def spec_prev_user_query (l : List HistEntry) : Option String :=
  (((l.reverse.filter (fun e => e.role == "user")).drop 1).head?).map HistEntry.message

lemma find?_eq_head?_filter {α : Type} (p : α → Bool) (l : List α) :
    l.find? p = (l.filter p).head? := by
  induction l with
  | nil => rfl
  | cons a t ih =>
      by_cases h : p a = true
      · rw [List.find?_cons_of_pos _ h, List.filter_cons_of_pos h]
        rfl
      · rw [List.find?_cons_of_neg _ (by simpa using h),
          List.filter_cons_of_neg (by simpa using h), ih]

lemma lastUserScan_false (l : List HistEntry) :
    lastUserScan l false = (l.find? (fun e => e.role == "user")).map HistEntry.message := by
  induction l with
  | nil => rfl
  | cons e t ih =>
      have step : lastUserScan (e :: t) false =
          if e.role = "user" then some e.message else lastUserScan t false := rfl
      rw [step]
      by_cases h : e.role = "user"
      · rw [if_pos h, List.find?_cons_of_pos _ (by simp [h])]
        rfl
      · rw [if_neg h, List.find?_cons_of_neg _ (by simp [h]), ih]

lemma lastUserScan_true (l : List HistEntry) :
    lastUserScan l true =
      ((((l.filter (fun e => e.role == "user")).drop 1).head?).map HistEntry.message) := by
  induction l with
  | nil => rfl
  | cons e t ih =>
      have step : lastUserScan (e :: t) true =
          if e.role = "user" then lastUserScan t false else lastUserScan t true := rfl
      rw [step]
      by_cases h : e.role = "user"
      · rw [if_pos h, lastUserScan_false, find?_eq_head?_filter,
          List.filter_cons_of_pos (by simp [h])]
        simp
      · rw [if_neg h, ih, List.filter_cons_of_neg (by simp [h])]

lemma foldl_append_history (msgs : List HistEntry) (st : SessionState) :
    msgs.foldl (fun s e => (append_message_to_history s e.role e.message e.ts).2) st =
      { st with history := st.history ++ msgs } := by
  induction msgs generalizing st with
  | nil => simp
  | cons e t ih =>
      rw [List.foldl_cons, ih]
      simp [append_message_to_history, List.append_assoc]

/-- C8 counterexample: append one user turn followed by twenty bot turns;
`get_last_user_query` (which fetches the history with `limit=20`) finds no
user entry, although the most recent user entry of the history is `"q0"`.
The claim's "returns the message text of the most recent entry with role
user" fails beyond the 20-entry window. -/
theorem last_user_query_window_counterexample :
    (let msgs : List HistEntry := ⟨"user", "q0", 0⟩ :: List.replicate 20 ⟨"bot", "b", 0⟩
     let st : SessionState := msgs.foldl
       (fun s e => (append_message_to_history s e.role e.message e.ts).2) emptySessionState
     get_last_user_query st false = none ∧
     spec_last_user_query st.history = some "q0") := by
  decide

/-- C8 as amended: turns read back in append order (all of them without a
limit, the most recent `limit` with a positive limit); but
`get_last_user_query` scans only the 20 most recent entries, returning the
most recent (resp. second-most-recent, with `skip_current`) user entry of
that window. -/
theorem history_and_last_user_query_window (msgs : List HistEntry) (n : Nat) (hn : 0 < n) :
    let st : SessionState := msgs.foldl
      (fun s e => (append_message_to_history s e.role e.message e.ts).2) emptySessionState
    st.history = msgs ∧
    get_session_history st none = msgs ∧
    get_session_history st (some n) = msgs.drop (msgs.length - n) ∧
    get_last_user_query st false = spec_last_user_query (msgs.drop (msgs.length - 20)) ∧
    get_last_user_query st true = spec_prev_user_query (msgs.drop (msgs.length - 20)) := by
  simp only [foldl_append_history]
  refine ⟨by simp [emptySessionState], by simp [get_session_history, emptySessionState], ?_, ?_, ?_⟩
  · simp [get_session_history, emptySessionState, hn]
  · simp [get_last_user_query, get_session_history, emptySessionState, lastUserScan_false,
      spec_last_user_query]
  · simp [get_last_user_query, get_session_history, emptySessionState, lastUserScan_true,
      spec_prev_user_query]

/-- Witness for C8 (amended): three appended turns, read back with and
without a limit, and both last-user-query variants. -/
theorem history_and_last_user_query_window_witness :
    0 < 2 ∧
    (let msgs : List HistEntry := [⟨"user", "a", 0⟩, ⟨"bot", "r", 1⟩, ⟨"user", "b", 2⟩]
     let st : SessionState := msgs.foldl
       (fun s e => (append_message_to_history s e.role e.message e.ts).2) emptySessionState
     st.history = msgs ∧
     get_session_history st none = msgs ∧
     get_session_history st (some 2) = msgs.drop (msgs.length - 2) ∧
     get_last_user_query st false = spec_last_user_query (msgs.drop (msgs.length - 20)) ∧
     get_last_user_query st true = spec_prev_user_query (msgs.drop (msgs.length - 20))) :=
  ⟨by decide,
   history_and_last_user_query_window [⟨"user", "a", 0⟩, ⟨"bot", "r", 1⟩, ⟨"user", "b", 2⟩] 2
     (by decide)⟩

/-! ### Session-activity update and its caller (C9) -/

/-- C9 counterexample: on a session id that is unknown (never created or
expired), `update_session_activity` does return `false`, but
`process_message` discards that boolean and still processes the turn —
here a consent reply is handled and the form advances — contradicting
"the caller treats a false return as session invalid and does not proceed
with processing the turn". -/
theorem process_message_proceeds_on_invalid_session :
    (update_session_activity 5
        (⟨none, "asking_consent", emptyFormData, []⟩ : SessionState)).1 = false ∧
    (process_message (fun _ _ => ⟨"query", "a"⟩) none "sid" "yes" 5
        ⟨none, "asking_consent", emptyFormData, []⟩).1 =
      "Great! Let me collect a few details. What\x27s your full name?" ∧
    (process_message (fun _ _ => ⟨"query", "a"⟩) none "sid" "yes" 5
        ⟨none, "asking_consent", emptyFormData, []⟩).2.contact_form_state =
      ContactFormState.COLLECTING_NAME.value := by
  decide

/-- Helper for C9: the outcome of a turn — response text, resulting form
state and data, and resulting history — does not depend on whether the
session metadata is present; `process_message` never consults the boolean
returned by `update_session_activity`. -/
lemma process_message_session_blind (agent : String → Option String → TurnResult)
    (mc : Option PersistOutcome) (sid input : String) (now : Nat)
    (se₁ se₂ : Option Session) (fs : String) (fd : FormData) (hist : List HistEntry) :
    (process_message agent mc sid input now ⟨se₁, fs, fd, hist⟩).1 =
      (process_message agent mc sid input now ⟨se₂, fs, fd, hist⟩).1 ∧
    (process_message agent mc sid input now ⟨se₁, fs, fd, hist⟩).2.contact_form_state =
      (process_message agent mc sid input now ⟨se₂, fs, fd, hist⟩).2.contact_form_state ∧
    (process_message agent mc sid input now ⟨se₁, fs, fd, hist⟩).2.contact_form_data =
      (process_message agent mc sid input now ⟨se₂, fs, fd, hist⟩).2.contact_form_data ∧
    (process_message agent mc sid input now ⟨se₁, fs, fd, hist⟩).2.history =
      (process_message agent mc sid input now ⟨se₂, fs, fd, hist⟩).2.history := by
  cases se₁ <;> cases se₂ <;>
    simp only [process_message, update_session_activity, append_message_to_history,
      get_last_user_query, get_session_history] <;>
    refine ⟨?_, ?_, ?_, ?_⟩ <;>
    first
      | trivial
      | (split_ifs <;> rfl)

/-- C9 as amended: `update_session_activity` returns `false` when the
session is unknown and `true` when it is known (refreshing the
last-activity timestamp and incrementing the turn count); but
`process_message` ignores the returned boolean: the turn's outcome is the
same whether or not the session metadata exists. -/
theorem update_session_activity_contract :
    (∀ (fs : String) (fd : FormData) (hist : List HistEntry) (now : Nat),
       update_session_activity now ⟨none, fs, fd, hist⟩ = (false, ⟨none, fs, fd, hist⟩)) ∧
    (∀ (s : Session) (fs : String) (fd : FormData) (hist : List HistEntry) (now : Nat),
       update_session_activity now ⟨some s, fs, fd, hist⟩ =
         (true, ⟨some ⟨s.created_at, now, s.query_count + 1⟩, fs, fd, hist⟩)) ∧
    (∀ (agent : String → Option String → TurnResult) (mc : Option PersistOutcome)
       (sid input : String) (now : Nat) (se : Option Session) (fs : String) (fd : FormData)
       (hist : List HistEntry),
       (process_message agent mc sid input now ⟨none, fs, fd, hist⟩).1 =
         (process_message agent mc sid input now ⟨se, fs, fd, hist⟩).1 ∧
       (process_message agent mc sid input now ⟨none, fs, fd, hist⟩).2.contact_form_state =
         (process_message agent mc sid input now ⟨se, fs, fd, hist⟩).2.contact_form_state ∧
       (process_message agent mc sid input now ⟨none, fs, fd, hist⟩).2.contact_form_data =
         (process_message agent mc sid input now ⟨se, fs, fd, hist⟩).2.contact_form_data) := by
  refine ⟨fun fs fd hist now => rfl, fun s fs fd hist now => rfl, ?_⟩
  intro agent mc sid input now se fs fd hist
  obtain ⟨ha, hb, hc, -⟩ := process_message_session_blind agent mc sid input now none se
    fs fd hist
  exact ⟨ha, hb, hc⟩

end VoiceAgent
